import Mathlib

/-!
Verification of the refresh-token flow of `yup-oauth2` (`src/src/refresh.rs`)
against its natural-language specification.

The embedding is a shallow one: the single public operation
`RefreshFlow::refresh_token` becomes a pure Lean function from the stored
outcome, the call arguments and a one-shot transport/clock environment to the
observable effects of the call (the request it posts, the outcome it returns,
and the outcome it stores).  A Rust panic (`unwrap` / `expect`) is modelled as
the `none` case of the `Option` wrapping the returned/stored pair.
-/

namespace YupOauth2

/-- A JSON value, used to represent a response body after parsing.  The
textual JSON parser of the external `rustc_serialize` codec is out of scope
(spec section 1); a body that is not valid JSON (such as `HELLO`) is
represented as `none : Option Json` at the use sites. -/
inductive Json where
  | null : Json
  | bool (b : Bool) : Json
  | num (n : Int) : Json
  | str (s : String) : Json
  | arr (elems : List Json) : Json
  | obj (fields : List (String × Json)) : Json

/-- First-match association lookup among the fields of a JSON object. -/
def jsonAssoc : List (String × Json) → String → Option Json
  | [], _ => none
  | (k, v) :: rest, key => if k = key then some v else jsonAssoc rest key

/-- Field lookup: `none` unless the value is an object with the field. -/
def Json.lookup : Json → String → Option Json
  | .obj fields, key => jsonAssoc fields key
  | _, _ => none

/-- A required string field: present and a string, else decode failure. -/
def Json.getStr (j : Json) (key : String) : Option String :=
  match j.lookup key with
  | some (.str s) => some s
  | _ => none

/-- A required integer field: present and an integer, else decode failure. -/
def Json.getInt (j : Json) (key : String) : Option Int :=
  match j.lookup key with
  | some (.num n) => some n
  | _ => none

/-- Modelled from the spec: the decoder for the provider-error shape
(the struct `common::JsonError`, repository code not under `src/`, decoded by
the external codec per spec section 4.3): required field `error : string`,
optional field `error_description : string` (absent or null gives `none`, a
present value of another type is a decode failure); unknown fields are
ignored.  Input `none` stands for a body that is not valid JSON. -/
def decodeJsonError : Option Json → Option (String × Option String)
  | none => none
  | some j =>
    match j.getStr "error" with
    | none => none
    | some e =>
      match j.lookup "error_description" with
      | none => some (e, none)
      | some .null => some (e, none)
      | some (.str d) => some (e, some d)
      | some _ => none

/-- The token shape: the local struct `JsonToken` of `refresh.rs` (required
fields `access_token : String`, `token_type : String`, `expires_in : i64`);
decoding semantics of the external codec modelled from spec section 4.3
(strict on required fields, tolerant of unknown fields). -/
def decodeJsonToken : Option Json → Option (String × String × Int)
  | none => none
  | some j =>
    match j.getStr "access_token", j.getStr "token_type",
          j.getInt "expires_in" with
    | some a, some t, some e => some (a, t, e)
    | _, _, _ => none

/-- Modelled from the spec: `hyper::HttpError`, the transport error type,
opaque to the core except for the `HttpStatusError` variant used as the
initial placeholder by `RefreshFlow::new`. -/
inductive HttpError where
  | HttpStatusError : HttpError
  | detail (msg : String) : HttpError
deriving DecidableEq

/-- Modelled from the spec: the `Token` struct (`super::Token`, repository
code not under `src/`), with the fields spec section 3 lists and `refresh.rs`
assigns (`expires_in` is set to `None` and `expires_in_timestamp` to
`Some(now + expires_in)` by the refresh flow). -/
structure Token where
  access_token : String
  token_type : String
  refresh_token : String
  expires_in : Option Int
  expires_in_timestamp : Option Int
deriving DecidableEq

/-- `RefreshResult` from `refresh.rs`: all possible outcomes of the flow. -/
inductive RefreshResult where
  | Error (e : HttpError) : RefreshResult
  | RefreshError (error : String) (error_description : Option String) :
      RefreshResult
  | Success (t : Token) : RefreshResult
deriving DecidableEq

/-- Whether the outcome is the `Success` variant. -/
def RefreshResult.isSuccess : RefreshResult → Bool
  | .Success _ => true
  | _ => false

/-- The stored outcome set by `RefreshFlow::new`: the arbitrary placeholder
`RefreshResult::Error(hyper::HttpError::HttpStatusError)`. -/
def newFlowResult : RefreshResult := .Error .HttpStatusError

/-- What reading the response body yields: an I/O error, or the body (given
already parsed; `none` when the bytes are not valid JSON). -/
inductive ReadResult where
  | ioError : ReadResult
  | body (parsed : Option Json) : ReadResult

/-- What one `send()` of the POST does: a transport error, or a response
whose body can then be read. -/
inductive SendResult where
  | err (e : HttpError) : SendResult
  | ok (read : ReadResult) : SendResult

/-- The environment of a single call: what the transport would do if the
POST is made, and the Clock value `UTC::now().timestamp()` would read. -/
structure Env where
  send : SendResult
  now : Int

/-- The least value of Rust's `i64`. -/
def i64Min : Int := -9223372036854775808

/-- The greatest value of Rust's `i64`. -/
def i64Max : Int := 9223372036854775807

/-- Two's-complement wrap-around into the `i64` range: the value the
release-mode Rust addition `UTC::now().timestamp() + t.expires_in`
(refresh.rs line 121) produces when the mathematical sum leaves the `i64`
range (a debug build would panic there instead). -/
def wrapI64 (n : Int) : Int :=
  (n + 9223372036854775808) % 18446744073709551616 - 9223372036854775808

/-- A value already in the `i64` range is unchanged by the wrap. -/
theorem wrapI64_eq_self (n : Int) (h₁ : i64Min ≤ n) (h₂ : n ≤ i64Max) :
    wrapI64 n = n := by
  unfold wrapI64
  unfold i64Min at h₁
  unfold i64Max at h₂
  omega

/-- The scope string built in `refresh.rs`:
`scopes.into_iter().map(as_ref).intersperse(" ").collect::<String>()`. -/
def joinScopes (scopes : List String) : String :=
  String.join (List.intersperse " " scopes)

/-- The ordered key/value pairs handed to `form_urlencoded::serialize` in
`refresh.rs` (the form encoder itself is the external component of spec
section 4.2; claims about the body are stated at this pair level). -/
def requestPairs (client_id client_secret refresh_tok : String)
    (scopes : List String) : List (String × String) :=
  [("client_id", client_id),
   ("client_secret", client_secret),
   ("refresh_token", refresh_tok),
   ("grant_type", "refresh_token"),
   ("scope", joinScopes scopes)]

/-- The observable effects of one `refresh_token` call: `request` is the
POST made (`none` when the call short-circuits without contacting the
network), and `ret` is `some (returned, stored)` on normal return
(`returned` the value handed back, `stored` the flow's `result` field after
the call) or `none` when the call panics. -/
structure CallOutcome where
  request : Option (String × List (String × String))
  ret : Option (RefreshResult × RefreshResult)
deriving DecidableEq

/-- Shallow embedding of `RefreshFlow::refresh_token` (refresh.rs lines
60-126).  `result` is the stored outcome before the call, `flow_type` the
endpoint URL (`flow_type.as_ref()`).  Mirrors the source path by path:
short-circuit on stored `Success`; build the form pairs and POST; on
`send()` error store and return `Error(err)`; a body-read I/O error panics
(`.ok().expect("string decode must work")`); try the error shape first and
on success store and return `RefreshError`; otherwise decode the token
shape, panicking on failure (`json::decode(&json_str).unwrap()`), and store
and return `Success` with `refresh_token` carried over and
`expires_in_timestamp` the `i64` sum `now + expires_in` — wrapping on
overflow as release-mode Rust addition does, hence `wrapI64`. -/
def refresh_token (result : RefreshResult) (flow_type : String)
    (client_id client_secret refresh_tok : String) (scopes : List String)
    (env : Env) : CallOutcome :=
  match result with
  | .Success t => ⟨none, some (.Success t, .Success t)⟩
  | _ =>
    let req := requestPairs client_id client_secret refresh_tok scopes
    match env.send with
    | .err e => ⟨some (flow_type, req), some (.Error e, .Error e)⟩
    | .ok .ioError => ⟨some (flow_type, req), none⟩
    | .ok (.body b) =>
      match decodeJsonError b with
      | some (e, d) =>
        ⟨some (flow_type, req),
         some (.RefreshError e d, .RefreshError e d)⟩
      | none =>
        match decodeJsonToken b with
        | none => ⟨some (flow_type, req), none⟩
        | some (a, ty, exp) =>
          let tok : Token :=
            ⟨a, ty, refresh_tok, none, some (wrapI64 (env.now + exp))⟩
          ⟨some (flow_type, req), some (.Success tok, .Success tok)⟩

/-- The spec's words for scope serialization (section 4.1 step 2): join with
a single ASCII space separator, no leading or trailing space, empty string
for the empty sequence, a single scope as is.  Compared with `joinScopes`,
the definition taken from the source. -/
def specScopeJoin : List String → String
  | [] => ""
  | [s] => s
  | s :: rest => s ++ " " ++ specScopeJoin rest

theorem stringJoinCons (x : String) (l : List String) :
    String.join (x :: l) = x ++ String.join l := by
  simp [String.join_eq, String.ext_iff]

theorem strAppendAssoc (a b c : String) : a ++ b ++ c = a ++ (b ++ c) := by
  apply String.ext
  simp

theorem joinScopes_eq_spec (scopes : List String) :
    joinScopes scopes = specScopeJoin scopes := by
  induction scopes with
  | nil => rfl
  | cons a rest ih =>
    cases rest with
    | nil => simp [joinScopes, specScopeJoin, String.join]
    | cons b rest₂ =>
      show String.join (a :: " " :: List.intersperse " " (b :: rest₂)) =
        a ++ " " ++ specScopeJoin (b :: rest₂)
      rw [stringJoinCons, stringJoinCons, strAppendAssoc]
      exact congrArg (fun s => a ++ (" " ++ s)) ih

/-- Every path of `refresh_token` either makes no request (short-circuit or
not yet reaching the POST) or posts exactly the form pairs built from the
arguments, to the flow-type URL. -/
theorem refresh_request_eq (st : RefreshResult) (ft cid cs rt : String)
    (scopes : List String) (env : Env) :
    (refresh_token st ft cid cs rt scopes env).request = none ∨
    (refresh_token st ft cid cs rt scopes env).request =
      some (ft, requestPairs cid cs rt scopes) := by
  unfold refresh_token
  rcases env with ⟨send, now⟩
  cases st <;> dsimp only
  · cases send with
    | err e => exact Or.inr rfl
    | ok r =>
      cases r with
      | ioError => exact Or.inr rfl
      | body b =>
        dsimp only
        rcases decodeJsonError b with _ | ⟨e, d⟩
        · rcases decodeJsonToken b with _ | ⟨a, ty, ex⟩
          · exact Or.inr rfl
          · exact Or.inr rfl
        · exact Or.inr rfl
  · cases send with
    | err e => exact Or.inr rfl
    | ok r =>
      cases r with
      | ioError => exact Or.inr rfl
      | body b =>
        dsimp only
        rcases decodeJsonError b with _ | ⟨e, d⟩
        · rcases decodeJsonToken b with _ | ⟨a, ty, ex⟩
          · exact Or.inr rfl
          · exact Or.inr rfl
        · exact Or.inr rfl
  · exact Or.inl rfl

/-- C2: sticky success — when the stored outcome is `Success t`, a call with
any arguments and any environment returns that same `Success t`, stores it
unchanged, and makes no POST (`request = none`). -/
theorem c2_sticky_success (t : Token) (ft cid cs rt : String)
    (scopes : List String) (env : Env) :
    refresh_token (.Success t) ft cid cs rt scopes env =
      ⟨none, some (.Success t, .Success t)⟩ := rfl

/-- C4: whenever a call reaches the network, the posted form pairs have
exactly the keys `client_id`, `client_secret`, `refresh_token`,
`grant_type`, `scope` in that order, and the `grant_type` pair carries the
literal value `refresh_token`. -/
theorem c4_body_keys (st : RefreshResult) (ft cid cs rt : String)
    (scopes : List String) (env : Env) (url : String)
    (pairs : List (String × String))
    (h : (refresh_token st ft cid cs rt scopes env).request =
      some (url, pairs)) :
    pairs.map Prod.fst =
      ["client_id", "client_secret", "refresh_token", "grant_type",
       "scope"] ∧
    pairs[3]? = some ("grant_type", "refresh_token") := by
  rcases refresh_request_eq st ft cid cs rt scopes env with hr | hr
  · rw [h] at hr; exact absurd hr (by simp)
  · rw [h] at hr
    have hp : pairs = requestPairs cid cs rt scopes := by
      have := Option.some.inj hr
      exact congrArg Prod.snd this
    subst hp
    exact ⟨rfl, rfl⟩

/-- C4 witness: a concrete call that reaches the network (initial stored
outcome, transport refuses the connection) posts the five keys in order
with `grant_type=refresh_token`. -/
theorem c4_body_keys_witness :
    (requestPairs "cid" "sec" "rtok" ["a", "b"]).map Prod.fst =
      ["client_id", "client_secret", "refresh_token", "grant_type",
       "scope"] ∧
    (requestPairs "cid" "sec" "rtok" ["a", "b"])[3]? =
      some ("grant_type", "refresh_token") :=
  c4_body_keys newFlowResult "https://example.com/token" "cid" "sec" "rtok"
    ["a", "b"] ⟨.err (.detail "connection refused"), 0⟩
    "https://example.com/token" (requestPairs "cid" "sec" "rtok" ["a", "b"])
    rfl

/-- C5: the `scope` pair of the request carries the scopes joined with a
single ASCII space (the spec-side `specScopeJoin`: no leading or trailing
space), the empty scope list yields the empty string, and a single scope is
sent as is with no trailing space. -/
theorem c5_scope_serialization (cid cs rt : String) (scopes : List String) :
    (requestPairs cid cs rt scopes)[4]? =
      some ("scope", specScopeJoin scopes) ∧
    joinScopes [] = "" ∧ (∀ s : String, joinScopes [s] = s) := by
  refine ⟨?_, rfl, fun s => ?_⟩
  · show some ("scope", joinScopes scopes) = _
    rw [joinScopes_eq_spec]
  · rw [joinScopes_eq_spec]; rfl

/-- The success path of `refresh_token` in one equation: from any stored
outcome that is not `Success`, when the body decodes as the token shape (and
not as the error shape), the call posts the form pairs and stores and
returns `Success` with `refresh_token` carried over from the argument and
`expires_in_timestamp` the source's `i64` sum `now + expires_in`. -/
theorem refresh_success_eq (st : RefreshResult) (hst : st.isSuccess = false)
    (ft cid cs rt : String) (scopes : List String) (b : Option Json)
    (now : Int) (a ty : String) (e : Int)
    (he : decodeJsonError b = none)
    (ht : decodeJsonToken b = some (a, ty, e)) :
    refresh_token st ft cid cs rt scopes ⟨.ok (.body b), now⟩ =
      ⟨some (ft, requestPairs cid cs rt scopes),
       some (.Success ⟨a, ty, rt, none, some (wrapI64 (now + e))⟩,
             .Success ⟨a, ty, rt, none, some (wrapI64 (now + e))⟩)⟩ := by
  cases st with
  | Success t => simp [RefreshResult.isSuccess] at hst
  | Error e' => simp [refresh_token, he, ht]
  | RefreshError e' d' => simp [refresh_token, he, ht]

/-- C3: the provider-error shape is decoded first — whenever the body
decodes as the error shape, the call stores and returns
`RefreshError(error, error_description)`, whatever the rest of the body
contains (the token shape is never consulted). -/
theorem c3_error_shape_wins (st : RefreshResult)
    (hst : st.isSuccess = false) (ft cid cs rt : String)
    (scopes : List String) (b : Option Json) (now : Int) (e : String)
    (d : Option String) (hdec : decodeJsonError b = some (e, d)) :
    refresh_token st ft cid cs rt scopes ⟨.ok (.body b), now⟩ =
      ⟨some (ft, requestPairs cid cs rt scopes),
       some (.RefreshError e d, .RefreshError e d)⟩ := by
  cases st with
  | Success t => simp [RefreshResult.isSuccess] at hst
  | Error e' => simp [refresh_token, hdec]
  | RefreshError e' d' => simp [refresh_token, hdec]

/-- A body that is simultaneously a valid provider-error document and a
valid token document. -/
def bothShapesBody : Json :=
  .obj [("error", .str "invalid_grant"),
        ("access_token", .str "1/fFAGRNJru1FTz70BzhT3Zg"),
        ("token_type", .str "Bearer"),
        ("expires_in", .num 3920)]

/-- C3 witness: on a concrete body that decodes as both shapes, the error
shape wins and the outcome is `RefreshError("invalid_grant", none)`. -/
theorem c3_error_shape_wins_witness :
    (RefreshResult.Error .HttpStatusError).isSuccess = false ∧
    decodeJsonError (some bothShapesBody) = some ("invalid_grant", none) ∧
    decodeJsonToken (some bothShapesBody) =
      some ("1/fFAGRNJru1FTz70BzhT3Zg", "Bearer", 3920) ∧
    refresh_token (.Error .HttpStatusError) "https://example.com/token"
        "cid" "sec" "rtok" ["a"] ⟨.ok (.body (some bothShapesBody)), 7⟩ =
      ⟨some ("https://example.com/token", requestPairs "cid" "sec" "rtok"
        ["a"]),
       some (.RefreshError "invalid_grant" none,
             .RefreshError "invalid_grant" none)⟩ :=
  ⟨rfl, rfl, rfl,
   c3_error_shape_wins (.Error .HttpStatusError) rfl
     "https://example.com/token" "cid" "sec" "rtok" ["a"]
     (some bothShapesBody) 7 "invalid_grant" none rfl⟩

/-- A stored success whose token carries refresh token `A`. -/
def stickyToken : Token := ⟨"atok", "Bearer", "A", none, some 100⟩

/-- C6 counterexample: a call made while a `Success` is stored
short-circuits and returns the stored token, so a call passing the
refresh token `B` returns `Success` of a token whose `refresh_token`
field is `A`, not `B` — the claim as stated fails on the short-circuit
path. -/
theorem c6_counterexample :
    (refresh_token (.Success stickyToken) "https://example.com/token"
        "cid" "sec" "B" [] ⟨.ok (.body none), 0⟩).ret =
      some (.Success stickyToken, .Success stickyToken) ∧
    stickyToken.refresh_token ≠ "B" :=
  ⟨rfl, by decide⟩

/-- C6 (amended to calls that do not short-circuit): from any stored
outcome that is not `Success`, a call whose body decodes as the token
shape returns `Success(token)` with `token.refresh_token` equal to the
`refresh_token` argument of that call and `token.expires_in_timestamp`
equal to the Clock value read during the call plus the body's
`expires_in` — the sum computed by the source's `i64` addition
(`wrapI64`). -/
theorem c6_success_postcondition (st : RefreshResult)
    (hst : st.isSuccess = false) (ft cid cs rt : String)
    (scopes : List String) (b : Option Json) (now : Int) (a ty : String)
    (e : Int) (he : decodeJsonError b = none)
    (ht : decodeJsonToken b = some (a, ty, e)) :
    ∃ tok : Token,
      (refresh_token st ft cid cs rt scopes ⟨.ok (.body b), now⟩).ret =
        some (.Success tok, .Success tok) ∧
      tok.refresh_token = rt ∧
      tok.expires_in_timestamp = some (wrapI64 (now + e)) := by
  refine ⟨⟨a, ty, rt, none, some (wrapI64 (now + e))⟩, ?_, rfl, rfl⟩
  rw [refresh_success_eq st hst ft cid cs rt scopes b now a ty e he ht]

/-- The token-shape body of the repository's own mock-transport test
(`refresh_flow` in refresh.rs). -/
def tokenBody : Json :=
  .obj [("access_token", .str "1/fFAGRNJru1FTz70BzhT3Zg"),
        ("expires_in", .num 3920),
        ("token_type", .str "Bearer")]

/-- C6 witness: the test scenario — valid token body at Clock value
1700000000 yields a `Success` carrying the input refresh token and
timestamp 1700000000 + 3920. -/
theorem c6_success_postcondition_witness :
    newFlowResult.isSuccess = false ∧
    decodeJsonError (some tokenBody) = none ∧
    decodeJsonToken (some tokenBody) =
      some ("1/fFAGRNJru1FTz70BzhT3Zg", "Bearer", 3920) ∧
    wrapI64 (1700000000 + 3920) = 1700003920 ∧
    ∃ tok : Token,
      (refresh_token newFlowResult "https://example.com/token" "bogus"
          "secret" "bogus_refresh_token" ["scope.url"]
          ⟨.ok (.body (some tokenBody)), 1700000000⟩).ret =
        some (.Success tok, .Success tok) ∧
      tok.refresh_token = "bogus_refresh_token" ∧
      tok.expires_in_timestamp = some (wrapI64 (1700000000 + 3920)) :=
  ⟨rfl, rfl, rfl, by decide,
   c6_success_postcondition newFlowResult rfl "https://example.com/token"
     "bogus" "secret" "bogus_refresh_token" ["scope.url"] (some tokenBody)
     1700000000 "1/fFAGRNJru1FTz70BzhT3Zg" "Bearer" 3920 rfl rfl⟩

/-- A token body whose `expires_in` is the largest `i64`, a strictly
positive integer the codec decodes without complaint. -/
def hugeExpiryBody : Json :=
  .obj [("access_token", .str "atk"),
        ("token_type", .str "Bearer"),
        ("expires_in", .num 9223372036854775807)]

/-- C8 counterexample: `expires_in = i64::MAX` satisfies the claim's only
precondition `expires_in > 0`, yet at Clock value 1700000000 the source's
`i64` sum `now + expires_in` (refresh.rs line 121) overflows and wraps to
-9223372035154775809, so the produced token's `expires_in_timestamp` is
strictly below the Clock value, refuting the claimed invariant (a debug
build would panic at the addition instead). -/
theorem c8_counterexample :
    (0 : Int) < 9223372036854775807 ∧
    decodeJsonError (some hugeExpiryBody) = none ∧
    decodeJsonToken (some hugeExpiryBody) =
      some ("atk", "Bearer", 9223372036854775807) ∧
    (refresh_token newFlowResult "https://example.com/token" "cid" "sec"
        "rtok" [] ⟨.ok (.body (some hugeExpiryBody)), 1700000000⟩).ret =
      some (.Success ⟨"atk", "Bearer", "rtok", none,
              some (-9223372035154775809)⟩,
            .Success ⟨"atk", "Bearer", "rtok", none,
              some (-9223372035154775809)⟩) ∧
    (-9223372035154775809 : Int) < 1700000000 := by
  refine ⟨by decide, rfl, rfl, by decide, by decide⟩

/-- C8 (amended to exclude `i64` overflow): when additionally the Clock
value is a valid `i64` and the mathematical sum `now + expires_in` does
not exceed `i64::MAX`, every token produced by a successful
(non-short-circuited) refresh with `expires_in > 0` has
`expires_in_timestamp = now + expires_in`, strictly greater than the
Clock value read during the call. -/
theorem c8_positive_expiry (st : RefreshResult)
    (hst : st.isSuccess = false) (ft cid cs rt : String)
    (scopes : List String) (b : Option Json) (now : Int) (a ty : String)
    (e : Int) (he : decodeJsonError b = none)
    (ht : decodeJsonToken b = some (a, ty, e)) (hpos : 0 < e)
    (hnow : i64Min ≤ now) (hsum : now + e ≤ i64Max) :
    ∃ tok : Token,
      (refresh_token st ft cid cs rt scopes ⟨.ok (.body b), now⟩).ret =
        some (.Success tok, .Success tok) ∧
      tok.expires_in_timestamp = some (now + e) ∧ now < now + e := by
  have hw : wrapI64 (now + e) = now + e := by
    apply wrapI64_eq_self _ _ hsum
    unfold i64Min at hnow ⊢
    omega
  refine ⟨⟨a, ty, rt, none, some (wrapI64 (now + e))⟩, ?_, ?_, by omega⟩
  · rw [refresh_success_eq st hst ft cid cs rt scopes b now a ty e he ht]
  · rw [hw]

/-- C8 witness: with `expires_in = 3920 > 0` at Clock 1700000000 the sum
stays in the `i64` range and the timestamp 1700003920 exceeds the Clock
value. -/
theorem c8_positive_expiry_witness :
    newFlowResult.isSuccess = false ∧
    decodeJsonError (some tokenBody) = none ∧
    decodeJsonToken (some tokenBody) =
      some ("1/fFAGRNJru1FTz70BzhT3Zg", "Bearer", 3920) ∧
    (0 : Int) < 3920 ∧ i64Min ≤ (1700000000 : Int) ∧
    (1700000000 : Int) + 3920 ≤ i64Max ∧
    ∃ tok : Token,
      (refresh_token newFlowResult "https://example.com/token" "cid" "sec"
          "rtok" [] ⟨.ok (.body (some tokenBody)), 1700000000⟩).ret =
        some (.Success tok, .Success tok) ∧
      tok.expires_in_timestamp = some (1700000000 + 3920) ∧
      (1700000000 : Int) < 1700000000 + 3920 :=
  ⟨rfl, rfl, rfl, by decide, by decide, by decide,
   c8_positive_expiry newFlowResult rfl "https://example.com/token" "cid"
     "sec" "rtok" [] (some tokenBody) 1700000000 "1/fFAGRNJru1FTz70BzhT3Zg"
     "Bearer" 3920 rfl rfl (by decide) (by decide) (by decide)⟩

/-- C9: from any stored outcome that is not `Success` (`Error`,
`RefreshError`, or the initial placeholder) a token-shape response
overwrites the stored outcome with `Success`, after which every further
call short-circuits to that same `Success` without a POST — the
transient-to-terminal transition exists. -/
theorem c9_success_reachable (st : RefreshResult)
    (hst : st.isSuccess = false) (ft cid cs rt : String)
    (scopes : List String) (b : Option Json) (now : Int) (a ty : String)
    (e : Int) (he : decodeJsonError b = none)
    (ht : decodeJsonToken b = some (a, ty, e)) :
    ∃ tok : Token,
      refresh_token st ft cid cs rt scopes ⟨.ok (.body b), now⟩ =
        ⟨some (ft, requestPairs cid cs rt scopes),
         some (.Success tok, .Success tok)⟩ ∧
      ∀ env : Env,
        refresh_token (.Success tok) ft cid cs rt scopes env =
          ⟨none, some (.Success tok, .Success tok)⟩ :=
  ⟨_, refresh_success_eq st hst ft cid cs rt scopes b now a ty e he ht,
   fun _ => rfl⟩

/-- C9 witness: from a stored `RefreshError` a token-shape response yields
a sticky `Success`. -/
theorem c9_success_reachable_witness :
    (RefreshResult.RefreshError "invalid_grant" none).isSuccess = false ∧
    decodeJsonError (some tokenBody) = none ∧
    decodeJsonToken (some tokenBody) =
      some ("1/fFAGRNJru1FTz70BzhT3Zg", "Bearer", 3920) ∧
    ∃ tok : Token,
      refresh_token (.RefreshError "invalid_grant" none)
          "https://example.com/token" "cid" "sec" "rtok" []
          ⟨.ok (.body (some tokenBody)), 42⟩ =
        ⟨some ("https://example.com/token",
               requestPairs "cid" "sec" "rtok" []),
         some (.Success tok, .Success tok)⟩ ∧
      ∀ env : Env,
        refresh_token (.Success tok) "https://example.com/token" "cid"
            "sec" "rtok" [] env =
          ⟨none, some (.Success tok, .Success tok)⟩ :=
  ⟨rfl, rfl, rfl,
   c9_success_reachable (.RefreshError "invalid_grant" none) rfl
     "https://example.com/token" "cid" "sec" "rtok" [] (some tokenBody) 42
     "1/fFAGRNJru1FTz70BzhT3Zg" "Bearer" 3920 rfl rfl⟩

/-- C7 counterexample: an I/O error while reading the response body makes
the call panic at `.ok().expect("string decode must work")` — modelled as
`ret = none` — instead of storing and returning a `TransportError` outcome
as the claim states for every transport error including I/O during body
read. -/
theorem c7_counterexample :
    (refresh_token newFlowResult "https://example.com/token" "cid" "sec"
        "rtok" [] ⟨.ok .ioError, 0⟩).ret = none := rfl

/-- C7 (amended to errors reported by `send()`): when sending the POST
fails, the call stores and returns `Error` carrying the transport's
detail, and the outcome is not sticky — a subsequent call from the stored
`Error` state makes another POST in every environment (an I/O error while
reading the body of an otherwise successful send instead panics, per the
counterexample). -/
theorem c7_send_error (st : RefreshResult) (hst : st.isSuccess = false)
    (ft cid cs rt : String) (scopes : List String) (e : HttpError)
    (now : Int) :
    refresh_token st ft cid cs rt scopes ⟨.err e, now⟩ =
      ⟨some (ft, requestPairs cid cs rt scopes),
       some (.Error e, .Error e)⟩ ∧
    ∀ env : Env,
      ((refresh_token (.Error e) ft cid cs rt scopes env).request).isSome =
        true := by
  constructor
  · cases st with
    | Success t => simp [RefreshResult.isSuccess] at hst
    | Error e' => rfl
    | RefreshError e' d' => rfl
  · intro env
    rcases env with ⟨send, now'⟩
    unfold refresh_token
    dsimp only
    cases send with
    | err e₂ => rfl
    | ok r =>
      cases r with
      | ioError => rfl
      | body b =>
        dsimp only
        rcases decodeJsonError b with _ | ⟨e₂, d₂⟩
        · rcases decodeJsonToken b with _ | ⟨a, ty, ex⟩
          · rfl
          · rfl
        · rfl

/-- C7 witness: a concrete refused connection from the initial state is
stored and returned as `Error`, and a later call from that state posts
again. -/
theorem c7_send_error_witness :
    newFlowResult.isSuccess = false ∧
    refresh_token newFlowResult "https://example.com/token" "cid" "sec"
        "rtok" ["a"] ⟨.err (.detail "connection refused"), 5⟩ =
      ⟨some ("https://example.com/token",
             requestPairs "cid" "sec" "rtok" ["a"]),
       some (.Error (.detail "connection refused"),
             .Error (.detail "connection refused"))⟩ ∧
    ∀ env : Env,
      ((refresh_token (.Error (.detail "connection refused"))
          "https://example.com/token" "cid" "sec" "rtok" ["a"]
          env).request).isSome = true :=
  ⟨rfl,
   c7_send_error newFlowResult rfl "https://example.com/token" "cid" "sec"
     "rtok" ["a"] (.detail "connection refused") 5⟩

/-- Every normal return of `refresh_token` carries the same outcome as
returned value and as stored value (the source always ends with
`self.result = x; return &self.result`). -/
theorem refresh_ret_diag (st : RefreshResult) (ft cid cs rt : String)
    (scopes : List String) (env : Env) :
    (refresh_token st ft cid cs rt scopes env).ret = none ∨
    ∃ x, (refresh_token st ft cid cs rt scopes env).ret = some (x, x) := by
  unfold refresh_token
  rcases env with ⟨send, now⟩
  cases st <;> dsimp only
  · cases send with
    | err e => exact Or.inr ⟨_, rfl⟩
    | ok r =>
      cases r with
      | ioError => exact Or.inl rfl
      | body b =>
        dsimp only
        rcases decodeJsonError b with _ | ⟨e, d⟩
        · rcases decodeJsonToken b with _ | ⟨a, ty, ex⟩
          · exact Or.inl rfl
          · exact Or.inr ⟨_, rfl⟩
        · exact Or.inr ⟨_, rfl⟩
  · cases send with
    | err e => exact Or.inr ⟨_, rfl⟩
    | ok r =>
      cases r with
      | ioError => exact Or.inl rfl
      | body b =>
        dsimp only
        rcases decodeJsonError b with _ | ⟨e, d⟩
        · rcases decodeJsonToken b with _ | ⟨a, ty, ex⟩
          · exact Or.inl rfl
          · exact Or.inr ⟨_, rfl⟩
        · exact Or.inr ⟨_, rfl⟩
  · exact Or.inr ⟨_, rfl⟩

/-- C10: whenever `refresh_token` returns normally, the returned outcome
equals the outcome stored in the flow at the moment of return, on every
path — short-circuit, transport error, provider error and success. -/
theorem c10_returned_equals_stored (st : RefreshResult)
    (ft cid cs rt : String) (scopes : List String) (env : Env)
    (r s : RefreshResult)
    (h : (refresh_token st ft cid cs rt scopes env).ret = some (r, s)) :
    r = s := by
  rcases refresh_ret_diag st ft cid cs rt scopes env with hd | ⟨x, hd⟩
  · rw [h] at hd; exact absurd hd (by simp)
  · rw [h] at hd
    have hx := Option.some.inj hd
    have h1 : r = x := congrArg Prod.fst hx
    have h2 : s = x := congrArg Prod.snd hx
    rw [h1, h2]

/-- C10 witness: a concrete transport-error call returns exactly the
outcome it stores. -/
theorem c10_returned_equals_stored_witness :
    (refresh_token (.RefreshError "invalid_grant" none)
        "https://example.com/token" "cid" "sec" "rtok" []
        ⟨.err (.detail "refused"), 0⟩).ret =
      some (.Error (.detail "refused"), .Error (.detail "refused")) ∧
    RefreshResult.Error (.detail "refused") = .Error (.detail "refused") :=
  ⟨rfl,
   c10_returned_equals_stored (.RefreshError "invalid_grant" none)
     "https://example.com/token" "cid" "sec" "rtok" []
     ⟨.err (.detail "refused"), 0⟩ (.Error (.detail "refused"))
     (.Error (.detail "refused")) rfl⟩

/-- C1: the claim fails on the code — on a body that decodes as neither
the provider-error shape nor the token shape (here a non-JSON body such as
`HELLO`, modelled as a parse failure), the call reaches
`json::decode::<JsonToken>(&json_str).unwrap()` and panics (modelled as
`ret = none`) instead of returning a `TransportError` outcome; indeed the
stored `RefreshResult` is not updated on this path at all. -/
theorem c1_decode_failure_panics :
    refresh_token newFlowResult "https://example.com/token" "cid" "sec"
        "rtok" ["scope.url"] ⟨.ok (.body none), 1700000000⟩ =
      ⟨some ("https://example.com/token",
             requestPairs "cid" "sec" "rtok" ["scope.url"]), none⟩ := rfl

end YupOauth2
